import Mathlib

/-!
Verification of the Banana Squad dashboard client (static/app.js, two
revisions) against its natural-language specification.

The repository ships two revisions of the dashboard script:
* the v2 script ("Form + Gallery + WebSocket"), modelled in namespace
  Dashboard.V2, which owns the job catalog (jobList), the per-job detail
  cache (jobDetailCache) and the debounced search;
* the v1 script ("WebSocket client + DOM updates"), modelled in namespace
  Dashboard.V1, which keeps a jobs map with per-job images/scores.

The embedding is a pure reducer over an explicit state record: each DOM /
network handler of the script becomes a Lean function from state (plus the
data the browser would hand the handler) to state.  Network requests are
recorded in the state (issuedFetches) when the code calls fetch, and a
response arriving is a separate step (fetchSuccess / loadJobs), matching
the single-threaded await semantics of the script.  Pure DOM rendering
(innerHTML construction) is modelled only where the spec constrains it:
renderPipeline becomes a function from the current stage string to the
list of per-stage icon classes.
-/

namespace Dashboard

/-- Job summary record as built by the v2 script for jobList entries and
returned by GET /api/jobs. -/
structure JobSummary where
  job_id : String
  prompt : String
  stage : String
  created_at : String
  completed_at : Option String
  image_count : Nat
  winner : Option String
  winner_path : Option String
  deriving Repr, DecidableEq

/-- Research block of a detail document (style, mood, colors), per the
renderJobDetail reader of the v2 script. -/
structure ResearchInfo where
  style : String
  mood : Option String
  colors : List String
  deriving Repr, DecidableEq

/-- One generated image variant inside a detail document. -/
structure ImageVariant where
  variant : String
  file_path : Option String
  success : Bool
  deriving Repr, DecidableEq

/-- Four-dimension score record of an evaluation; the script only reads
the numbers to render bars, so they are modelled as integers. -/
structure ScoreMap where
  faithfulness : Int
  conciseness : Int
  readability : Int
  aesthetics : Int
  total : Int
  deriving Repr, DecidableEq

/-- One evaluation entry inside a detail document. -/
structure Evaluation where
  variant : String
  scores : ScoreMap
  rank : Nat
  deriving Repr, DecidableEq

/-- One refinement entry inside a detail document. -/
structure Refinement where
  variant : String
  instruction : Option String
  refined_path : Option String
  created_at : Option String
  deriving Repr, DecidableEq

/-- Full per-job detail document, the JSON of GET /api/jobs/{id} as read
by renderJobDetail. -/
structure JobDetail where
  job_id : String
  stage : String
  research : Option ResearchInfo
  images : List ImageVariant
  evaluations : List Evaluation
  refinements : List Refinement
  summary : Option String
  deriving Repr, DecidableEq

/-- One rolling agent-log entry; time is kept as the raw timestamp string
(the locale formatting done by toLocaleTimeString is presentation only). -/
structure AgentLogEntry where
  agent : String
  message : String
  time : String
  deriving Repr, DecidableEq

/-- Payload object of a push event envelope.  The JS object may omit any
field (reading it then yields undefined), so every field is an Option. -/
structure EventData where
  prompt : Option String := none
  stage : Option String := none
  agent : Option String := none
  message : Option String := none
  variant : Option String := none
  error : Option String := none
  file_path : Option String := none
  index : Option Nat := none
  scores : Option ScoreMap := none
  rank : Option Nat := none
  review : Option String := none
  deriving Repr, DecidableEq

/-- Push event envelope: type, job_id, data, timestamp. -/
structure EventEnvelope where
  type : String
  job_id : String
  data : EventData
  timestamp : String
  deriving Repr, DecidableEq

/-- JS-style (x || d) on an optional string: undefined and the empty
string are falsy, so both fall back to the default. -/
def jsOr (x : Option String) (d : String) : String :=
  match x with
  | some s => if s.isEmpty then d else s
  | none => d

/-- Keys of the four rendered pipeline stage icons; both script revisions
declare the same STAGES array (research, prompt_crafting, generating,
evaluating). -/
def STAGES : List String := ["research", "prompt_crafting", "generating", "evaluating"]

/-- JS Array.findIndex over STAGES: the index of the matching key, or -1
when the argument matches no key (which is the case for queued, complete
and failed). -/
def stageFindIndex (currentStage : String) : Int :=
  match STAGES.findIdx? (fun k => k == currentStage) with
  | some i => (i : Int)
  | none => -1

/-- Icon class the renderPipeline function of either script revision
assigns to the stage icon at position i, given the currentStage argument:
pending by default, failed when failed at the matching index, done when
complete or before the matching index, active at the matching index. -/
def stageIconClass (currentStage : String) (i : Nat) : String :=
  let stageIndex := stageFindIndex currentStage
  let isFailed := currentStage == "failed"
  let isComplete := currentStage == "complete"
  if isFailed && ((i : Int) == stageIndex) then "failed"
  else if isComplete || decide ((i : Int) < stageIndex) then "done"
  else if (i : Int) == stageIndex then "active"
  else "pending"

/-- The renderPipeline function as a pure projection: the list of icon
classes of the four rendered stages, in order. -/
def renderPipeline (currentStage : String) : List String :=
  (List.range STAGES.length).map (stageIconClass currentStage)

namespace V2

/-- Outcome of a fetchAndRenderDetail call: the guard clauses of the v2
function either bail out (missing DOM container), serve the cached
document, or issue a GET /api/jobs/{id} request. -/
inductive FetchOutcome where
  | noContainer
  | servedCache
  | issuedRequest
  deriving Repr, DecidableEq

/-- Mutable session state of the v2 script: the module-level variables
currentJobId, expandedJobId, jobList, jobDetailCache, agentLog, plus an
instrumentation list issuedFetches recording each GET /api/jobs/{id} the
script has issued (job id, forceRefresh flag). -/
structure State where
  currentJobId : Option String := none
  expandedJobId : Option String := none
  jobList : List JobSummary := []
  jobDetailCache : List (String × JobDetail) := []
  agentLog : List AgentLogEntry := []
  issuedFetches : List (String × Bool) := []
  deriving Repr, DecidableEq

/-- Lookup in the detail cache (jobDetailCache[jobId]). -/
def lookupCache (cache : List (String × JobDetail)) (jobId : String) :
    Option JobDetail :=
  (cache.find? (fun e => e.fst == jobId)).map (·.snd)

/-- Removal from the detail cache (delete jobDetailCache[jobId]). -/
def eraseCache (cache : List (String × JobDetail)) (jobId : String) :
    List (String × JobDetail) :=
  cache.filter (fun e => e.fst != jobId)

/-- Insertion into the detail cache (jobDetailCache[jobId] = detail):
overwrite the entry if present, append otherwise. -/
def insertCache (cache : List (String × JobDetail)) (jobId : String)
    (detail : JobDetail) : List (String × JobDetail) :=
  if (cache.find? (fun e => e.fst == jobId)).isSome then
    cache.map (fun e => if e.fst == jobId then (jobId, detail) else e)
  else
    cache ++ [(jobId, detail)]

/-- The updateJobStage function of the v2 script: find the first jobList
entry with the given id and set its stage; no entry, no effect. -/
def setStageFirst (l : List JobSummary) (jobId stage : String) :
    List JobSummary :=
  match l with
  | [] => []
  | j :: rest =>
      if j.job_id == jobId then { j with stage := stage } :: rest
      else j :: setStageFirst rest jobId stage

/-- State effect of updateJobStage(jobId, stage). -/
def updateJobStage (st : State) (jobId stage : String) : State :=
  { st with jobList := setStageFirst st.jobList jobId stage }

/-- Current stage of a job in the catalog, when present (first match, as
jobList.find does). -/
def stageOf (st : State) (jobId : String) : Option String :=
  (st.jobList.find? (fun j => j.job_id == jobId)).map (·.stage)

/-- State effect of the synchronous prefix of fetchAndRenderDetail(jobId,
forceRefresh): bail out when the detail container is absent from the DOM;
serve the cache when present and not forced; otherwise issue a
GET /api/jobs/{id} (the await point — the response is a separate
fetchSuccess step).  containerExists stands for the
document.getElementById guard. -/
def fetchAndRenderDetail (st : State) (jobId : String)
    (forceRefresh containerExists : Bool) : State × FetchOutcome :=
  if !containerExists then (st, .noContainer)
  else if !forceRefresh && (lookupCache st.jobDetailCache jobId).isSome then
    (st, .servedCache)
  else
    ({ st with issuedFetches := st.issuedFetches ++ [(jobId, forceRefresh)] },
     .issuedRequest)

/-- State effect of the success path of an in-flight detail fetch
resolving: jobDetailCache[jobId] = detail.  The v2 script attaches no
sequence number, so any completion writes the cache unconditionally. -/
def fetchSuccess (st : State) (jobId : String) (detail : JobDetail) :
    State :=
  { st with jobDetailCache := insertCache st.jobDetailCache jobId detail }

/-- State effect of renderGallery: with an empty jobList it renders the
empty state and returns; otherwise it rebuilds the cards and, when a card
is expanded, calls fetchAndRenderDetail on it (its detail container exists
exactly when the expanded job is in jobList, since only jobList entries
get cards). -/
def renderGalleryFetch (st : State) : State :=
  if st.jobList.isEmpty then st
  else
    match st.expandedJobId with
    | some e =>
        (fetchAndRenderDetail st e false (st.jobList.any (fun j => j.job_id == e))).fst
    | none => st

/-- The handleEvent reducer of the v2 script, case by case over the event
type; unrecognized types fall through the switch unchanged. -/
def handleEvent (st : State) (ev : EventEnvelope) : State :=
  if ev.type == "job_started" then
    let st1 : State :=
      { st with currentJobId := some ev.job_id, agentLog := [] }
    let st2 : State :=
      if (st1.jobList.find? (fun j => j.job_id == ev.job_id)).isSome then st1
      else
        { st1 with jobList :=
            { job_id := ev.job_id
              prompt := jsOr ev.data.prompt ""
              stage := "research"
              created_at := ev.timestamp
              completed_at := none
              image_count := 0
              winner := none
              winner_path := none } :: st1.jobList }
    let st3 : State := { st2 with jobDetailCache := eraseCache st2.jobDetailCache ev.job_id }
    renderGalleryFetch st3
  else if ev.type == "stage_changed" then
    updateJobStage st ev.job_id (ev.data.stage.getD "")
  else if ev.type == "agent_message" || ev.type == "progress" then
    { st with agentLog := st.agentLog ++
        [{ agent := ev.data.agent.getD "", message := ev.data.message.getD "",
           time := ev.timestamp }] }
  else if ev.type == "image_generated" then
    { st with jobDetailCache := eraseCache st.jobDetailCache ev.job_id }
  else if ev.type == "variant_scored" then
    { st with jobDetailCache := eraseCache st.jobDetailCache ev.job_id }
  else if ev.type == "image_refined" then
    let st1 : State := { st with jobDetailCache := eraseCache st.jobDetailCache ev.job_id }
    let st2 : State :=
      if st1.expandedJobId == some ev.job_id then
        (fetchAndRenderDetail st1 ev.job_id true
          (st1.jobList.any (fun j => j.job_id == ev.job_id))).fst
      else st1
    { st2 with agentLog := st2.agentLog ++
        [{ agent := "generator",
           message := "Förfinad variant: " ++ jsOr ev.data.variant "",
           time := ev.timestamp }] }
  else if ev.type == "job_completed" then
    let st1 : State := updateJobStage st ev.job_id "complete"
    let st2 : State := { st1 with jobDetailCache := eraseCache st1.jobDetailCache ev.job_id }
    let st3 : State := renderGalleryFetch st2
    if st3.expandedJobId == some ev.job_id then
      (fetchAndRenderDetail st3 ev.job_id false
        (st3.jobList.any (fun j => j.job_id == ev.job_id))).fst
    else st3
  else if ev.type == "job_failed" then
    let st1 : State := updateJobStage st ev.job_id "failed"
    let st2 : State :=
      { st1 with agentLog := st1.agentLog ++
          [{ agent := "system",
             message := "Fel: " ++ jsOr ev.data.error "unknown",
             time := ev.timestamp }] }
    renderGalleryFetch st2
  else
    st

/-- State effect of loadJobs once the GET /api/jobs response is in: on
success the parsed array wholesale replaces jobList and renderGallery
runs; a thrown fetch/parse error is logged and leaves the state as is. -/
def loadJobs (st : State) (response : Option (List JobSummary)) : State :=
  match response with
  | some list => renderGalleryFetch { st with jobList := list }
  | none => st

/-- Timer-level model of the v2 search/sort controller.  The script keeps
one debounce handle (searchDebounce); each input event clears it and arms
a fresh 350ms setTimeout whose callback is loadJobs, and a sort change
calls loadJobs directly.  The model tracks the due time of the armed
timer, the current content of the search input, and the (trimmed) search
text of every loadJobs invocation so far, in order. -/
structure SearchState where
  pendingAt : Option Nat := none
  searchText : String := ""
  queries : List String := []
  deriving Repr, DecidableEq

/-- Run the armed debounce callback when its due time has been reached:
loadJobs fires once with the search text the input holds at fire time,
and the handle is spent. -/
def fireIfDue (s : SearchState) (now : Nat) : SearchState :=
  match s.pendingAt with
  | some p =>
      if p ≤ now then
        { s with pendingAt := none, queries := s.queries ++ [s.searchText.trim] }
      else s
  | none => s

/-- Input-event handler of the search box at time now with the new input
content text: any timer already due has fired first (event-loop order),
then clearTimeout cancels a still-pending fire and setTimeout arms a new
one for 350ms later. -/
def onSearchInput (s : SearchState) (now : Nat) (text : String) : SearchState :=
  let s1 := fireIfDue s now
  { s1 with searchText := text, pendingAt := some (now + 350) }

/-- Change handler of the sort select: loadJobs runs immediately (after
any already-due timer). -/
def onSortChange (s : SearchState) (now : Nat) : SearchState :=
  let s1 := fireIfDue s now
  { s1 with queries := s1.queries ++ [s1.searchText.trim] }

/-- Feed a chronological list of (time, text) input events through the
input handler. -/
def runSearchInputs (s : SearchState) (evs : List (Nat × String)) : SearchState :=
  evs.foldl (fun acc e => onSearchInput acc e.fst e.snd) s

/-- Let time pass beyond any armed due time with no further input: the
pending timer, if any, fires. -/
def settleDebounce (s : SearchState) : SearchState :=
  match s.pendingAt with
  | some _ => { s with pendingAt := none, queries := s.queries ++ [s.searchText.trim] }
  | none => s

/-- Each event in the list happens no earlier than tprev and strictly
less than 350ms after the previous event (tprev for the first one). -/
def gapsFrom (tprev : Nat) : List (Nat × String) → Bool
  | [] => true
  | e :: rest => (tprev ≤ e.fst && e.fst < tprev + 350) && gapsFrom e.fst rest

/-- Each event in the list happens no earlier than its predecessor and
strictly less than 350ms after it. -/
def gapsWithinDebounce : List (Nat × String) → Bool
  | [] => true
  | e :: rest => gapsFrom e.fst rest

/-- Connection-level state of the v2 script: the status indicator driven
by the WebSocket callbacks, whether a reconnect is scheduled (the
setTimeout(connect, 3000) armed by onclose), a count of logged parse
errors, and the dashboard session state the message handler mutates. -/
structure ConnState where
  connected : Bool := false
  reconnectScheduled : Bool := false
  parseErrors : Nat := 0
  dash : State := {}
  deriving Repr, DecidableEq

/-- The ws.onopen callback: status indicator shows connected. -/
def wsOpen (cs : ConnState) : ConnState :=
  { cs with connected := true, reconnectScheduled := false }

/-- The ws.onclose callback: status indicator shows disconnected and a
reconnect attempt is scheduled 3 seconds out. -/
def wsClose (cs : ConnState) : ConnState :=
  { cs with connected := false, reconnectScheduled := true }

/-- The ws.onerror callback: it only calls ws.close(), whose effect is the
onclose teardown. -/
def wsError (cs : ConnState) : ConnState :=
  wsClose cs

/-- The ws.onmessage callback on a raw payload: JSON.parse either yields
an event envelope, which handleEvent applies, or throws, in which case the
catch logs the parse error and nothing else happens.  The parse result is
passed in as an Option (none = malformed payload). -/
def wsMessage (cs : ConnState) (parsed : Option EventEnvelope) : ConnState :=
  match parsed with
  | some ev => { cs with dash := handleEvent cs.dash ev }
  | none => { cs with parseErrors := cs.parseErrors + 1 }

end V2

namespace V1

/-- One image entry the v1 script pushes on image_generated; every field
is read straight off the event data object, so each may be absent. -/
structure V1Image where
  variant : Option String
  file_path : Option String
  index : Option Nat
  deriving Repr, DecidableEq

/-- One score entry the v1 script pushes on variant_scored. -/
structure V1Score where
  variant : Option String
  scores : Option ScoreMap
  rank : Option Nat
  review : Option String
  deriving Repr, DecidableEq

/-- Per-job record of the v1 jobs map. -/
structure Job where
  id : String
  stage : String
  prompt : String
  images : List V1Image
  scores : List V1Score
  agentLog : List AgentLogEntry
  deriving Repr, DecidableEq

/-- Mutable session state of the v1 script: currentJobId, the jobs map
(a JS object keyed by job id, insertion order preserved), and the global
rolling agent log. -/
structure State where
  currentJobId : Option String := none
  jobs : List (String × Job) := []
  agentLog : List AgentLogEntry := []
  deriving Repr, DecidableEq

/-- Lookup in the v1 jobs map. -/
def lookupJob (jobs : List (String × Job)) (jobId : String) : Option Job :=
  (jobs.find? (fun e => e.fst == jobId)).map (·.snd)

/-- In-place mutation of one job record of the map (the script mutates
the object jobs[job_id] refers to). -/
def modifyJob (st : State) (jobId : String) (f : Job → Job) : State :=
  { st with jobs := st.jobs.map (fun e => if e.fst == jobId then (e.fst, f e.snd) else e) }

/-- The implicit record the v1 handleEvent prelude builds for an unseen
job id: stage queued, prompt from the event data when given, all lists
empty. -/
def defaultJob (ev : EventEnvelope) : Job :=
  { id := ev.job_id
    stage := "queued"
    prompt := jsOr ev.data.prompt ""
    images := []
    scores := []
    agentLog := [] }

/-- The track-job prelude of the v1 handleEvent: when jobs[job_id] is
absent it is created with default fields, before the switch on the event
type runs. -/
def ensureJob (st : State) (ev : EventEnvelope) : State :=
  if (lookupJob st.jobs ev.job_id).isSome then st
  else { st with jobs := st.jobs ++ [(ev.job_id, defaultJob ev)] }

/-- The switch on the event type of the v1 handleEvent, run after the
track-job prelude (so jobs[job_id] exists). -/
def applyTyped (st : State) (ev : EventEnvelope) : State :=
  if ev.type == "job_started" then
    let st1 := modifyJob st ev.job_id (fun j =>
      { j with prompt := jsOr ev.data.prompt j.prompt, stage := "research" })
    { st1 with currentJobId := some ev.job_id, agentLog := [] }
  else if ev.type == "stage_changed" then
    modifyJob st ev.job_id (fun j => { j with stage := ev.data.stage.getD "" })
  else if ev.type == "agent_message" then
    let entry : AgentLogEntry :=
      { agent := ev.data.agent.getD "", message := ev.data.message.getD "",
        time := ev.timestamp }
    let st1 := { st with agentLog := st.agentLog ++ [entry] }
    modifyJob st1 ev.job_id (fun j => { j with agentLog := j.agentLog ++ [entry] })
  else if ev.type == "progress" then
    { st with agentLog := st.agentLog ++
        [{ agent := ev.data.agent.getD "", message := ev.data.message.getD "",
           time := ev.timestamp }] }
  else if ev.type == "image_generated" then
    modifyJob st ev.job_id (fun j =>
      { j with images := j.images ++
          [{ variant := ev.data.variant, file_path := ev.data.file_path,
             index := ev.data.index }] })
  else if ev.type == "variant_scored" then
    modifyJob st ev.job_id (fun j =>
      { j with scores := j.scores ++
          [{ variant := ev.data.variant, scores := ev.data.scores,
             rank := ev.data.rank, review := ev.data.review }] })
  else if ev.type == "job_completed" then
    modifyJob st ev.job_id (fun j => { j with stage := "complete" })
  else if ev.type == "job_failed" then
    let st1 := modifyJob st ev.job_id (fun j => { j with stage := "failed" })
    { st1 with agentLog := st1.agentLog ++
        [{ agent := "system",
           message := "Fel: " ++ ev.data.error.getD "undefined",
           time := ev.timestamp }] }
  else
    st

/-- The handleEvent reducer of the v1 script: track-job prelude, then the
switch on the event type. -/
def handleEvent (st : State) (ev : EventEnvelope) : State :=
  applyTyped (ensureJob st ev) ev

/-- Current stage of a job in the v1 jobs map, when present. -/
def stageOf (st : State) (jobId : String) : Option String :=
  (lookupJob st.jobs jobId).map (·.stage)

end V1

/-- Catalog relation of the frame property: new is old with at most the
stage changed, and the stage only when the entry is the event's job. -/
def sameExceptStage (target : String) (old new : JobSummary) : Prop :=
  new.job_id = old.job_id ∧ new.prompt = old.prompt ∧
  new.created_at = old.created_at ∧ new.completed_at = old.completed_at ∧
  new.image_count = old.image_count ∧ new.winner = old.winner ∧
  new.winner_path = old.winner_path ∧
  (old.job_id ≠ target → new.stage = old.stage)

/-- Concrete detail document for scenario theorems: the first response the
server returns for job j1. -/
def exDetailOne : JobDetail :=
  { job_id := "j1", stage := "complete", research := none, images := [],
    evaluations := [], refinements := [], summary := some "first response" }

/-- Second, different response for the same job j1. -/
def exDetailTwo : JobDetail :=
  { exDetailOne with summary := some "second response" }

/-- Concrete catalog entry for job j1, already at stage complete. -/
def exSummary : JobSummary :=
  { job_id := "j1", prompt := "a red bicycle", stage := "complete",
    created_at := "2026-01-01T10:00:00", completed_at := none,
    image_count := 0, winner := none, winner_path := none }

/-- Concrete v2 session state: j1 is in the catalog, expanded, and its
detail document is cached. -/
def exState : V2.State :=
  { currentJobId := none, expandedJobId := some "j1", jobList := [exSummary],
    jobDetailCache := [("j1", exDetailOne)], agentLog := [],
    issuedFetches := [] }

/-- Concrete job_failed event for j1. -/
def exFailedEvent : EventEnvelope :=
  { type := "job_failed", job_id := "j1", data := {}, timestamp := "t1" }

/-- Concrete stage_changed event moving j1 to generating. -/
def exStageEvent : EventEnvelope :=
  { type := "stage_changed", job_id := "j1",
    data := { stage := some "generating" }, timestamp := "t2" }

/-- Concrete job_started event for the already-present job j1. -/
def exStartEvent : EventEnvelope :=
  { type := "job_started", job_id := "j1", data := {}, timestamp := "t0" }

/-- Concrete variant_scored event for j1. -/
def exScoredEvent : EventEnvelope :=
  { type := "variant_scored", job_id := "j1", data := { variant := some "v2" },
    timestamp := "t3" }

/-- Concrete stage_changed event for a job id absent from every store. -/
def exUnknownStageEvent : EventEnvelope :=
  { type := "stage_changed", job_id := "zz",
    data := { stage := some "generating" }, timestamp := "t4" }

/-- Concrete job_started event for a brand-new job, as the optimistic
insertion path sees it. -/
def exFreshStartEvent : EventEnvelope :=
  { type := "job_started", job_id := "new1",
    data := { prompt := some "fresh prompt" }, timestamp := "t5" }

theorem isSomeMap {α β : Type} (f : α → β) (o : Option α) :
    (o.map f).isSome = o.isSome := by
  cases o <;> rfl

namespace V2

theorem fetchAndRenderDetail_cache (st : State) (jobId : String)
    (forceRefresh containerExists : Bool) :
    ((fetchAndRenderDetail st jobId forceRefresh containerExists).fst).jobDetailCache
      = st.jobDetailCache := by
  unfold fetchAndRenderDetail
  split
  · rfl
  · split
    · rfl
    · rfl

theorem fetchAndRenderDetail_jobList (st : State) (jobId : String)
    (forceRefresh containerExists : Bool) :
    ((fetchAndRenderDetail st jobId forceRefresh containerExists).fst).jobList
      = st.jobList := by
  unfold fetchAndRenderDetail
  split
  · rfl
  · split
    · rfl
    · rfl

theorem renderGalleryFetch_cache (st : State) :
    (renderGalleryFetch st).jobDetailCache = st.jobDetailCache := by
  unfold renderGalleryFetch
  split
  · rfl
  · split
    · exact fetchAndRenderDetail_cache ..
    · rfl

theorem renderGalleryFetch_jobList (st : State) :
    (renderGalleryFetch st).jobList = st.jobList := by
  unfold renderGalleryFetch
  split
  · rfl
  · split
    · exact fetchAndRenderDetail_jobList ..
    · rfl

theorem lookupCache_eraseCache_self (cache : List (String × JobDetail))
    (jobId : String) :
    lookupCache (eraseCache cache jobId) jobId = none := by
  have hfind : (List.filter (fun e => e.fst != jobId) cache).find?
      (fun e => e.fst == jobId) = none := by
    rw [List.find?_eq_none]
    intro x hx
    have hmem := List.of_mem_filter hx
    simp only [bne_iff_ne, ne_eq] at hmem
    simp only [beq_iff_eq]
    exact hmem
  simp [lookupCache, eraseCache, hfind]

theorem find?_map_insert (cache : List (String × JobDetail)) (jobId : String)
    (detail : JobDetail)
    (h : (cache.find? (fun e => e.fst == jobId)).isSome = true) :
    ((cache.map (fun e => if e.fst == jobId then (jobId, detail) else e)).find?
        (fun e => e.fst == jobId)) = some (jobId, detail) := by
  induction cache with
  | nil => simp [List.find?] at h
  | cons e rest ih =>
      by_cases he : e.fst == jobId
      · simp [List.find?, he]
      · simp only [List.find?, he] at h
        simpa [List.find?, he] using ih h

theorem find?_append_right_none (cache : List (String × JobDetail))
    (jobId : String) (detail : JobDetail)
    (h : cache.find? (fun e => e.fst == jobId) = none) :
    ((cache ++ [(jobId, detail)]).find? (fun e => e.fst == jobId))
      = some (jobId, detail) := by
  induction cache with
  | nil => simp [List.find?]
  | cons e rest ih =>
      by_cases he : e.fst == jobId
      · simp [List.find?, he] at h
      · simp only [List.find?, he] at h
        simpa [List.find?, he] using ih h

theorem lookupCache_insertCache_self (cache : List (String × JobDetail))
    (jobId : String) (detail : JobDetail) :
    lookupCache (insertCache cache jobId detail) jobId = some detail := by
  unfold insertCache
  by_cases h : (cache.find? (fun e => e.fst == jobId)).isSome = true
  · rw [if_pos h]
    have h1 := find?_map_insert cache jobId detail h
    simp only [lookupCache, h1]
    rfl
  · rw [if_neg h]
    have h0 : cache.find? (fun e => e.fst == jobId) = none := by
      cases hf : cache.find? (fun e => e.fst == jobId)
      · rfl
      · simp [hf] at h
    have h1 := find?_append_right_none cache jobId detail h0
    simp only [lookupCache, h1]
    rfl

theorem setStageFirst_of_none (l : List JobSummary) (jobId stage : String)
    (h : l.find? (fun j => j.job_id == jobId) = none) :
    setStageFirst l jobId stage = l := by
  induction l with
  | nil => rfl
  | cons j rest ih =>
      by_cases hj : j.job_id == jobId
      · simp [List.find?, hj] at h
      · simp only [List.find?, hj] at h
        simp [setStageFirst, hj, ih h]

theorem find?_setStageFirst_self (l : List JobSummary) (jobId stage : String)
    (h : (l.find? (fun j => j.job_id == jobId)).isSome = true) :
    ((setStageFirst l jobId stage).find? (fun j => j.job_id == jobId)).map (·.stage)
      = some stage := by
  induction l with
  | nil => simp [List.find?] at h
  | cons j rest ih =>
      by_cases hj : j.job_id == jobId
      · simp [setStageFirst, List.find?, hj]
      · simp only [List.find?, hj] at h
        simpa [setStageFirst, List.find?, hj] using ih h

theorem stageOf_updateJobStage_self (st : State) (jobId stage : String)
    (h : (stageOf st jobId).isSome = true) :
    stageOf (updateJobStage st jobId stage) jobId = some stage := by
  have h2 : (st.jobList.find? (fun j => j.job_id == jobId)).isSome = true := by
    unfold stageOf at h
    cases hf : st.jobList.find? (fun j => j.job_id == jobId)
    · simp [hf] at h
    · rfl
  exact find?_setStageFirst_self st.jobList jobId stage h2

theorem handleEvent_image_generated (st : State) (jid : String)
    (d : EventData) (ts : String) :
    handleEvent st ⟨"image_generated", jid, d, ts⟩ =
      { st with jobDetailCache := eraseCache st.jobDetailCache jid } :=
  rfl

theorem handleEvent_variant_scored (st : State) (jid : String)
    (d : EventData) (ts : String) :
    handleEvent st ⟨"variant_scored", jid, d, ts⟩ =
      { st with jobDetailCache := eraseCache st.jobDetailCache jid } :=
  rfl

theorem handleEvent_stage_changed (st : State) (jid : String)
    (d : EventData) (ts : String) :
    handleEvent st ⟨"stage_changed", jid, d, ts⟩ =
      updateJobStage st jid (d.stage.getD "") :=
  rfl

theorem handleEvent_image_refined (st : State) (jid : String)
    (d : EventData) (ts : String) :
    handleEvent st ⟨"image_refined", jid, d, ts⟩ =
      (let st1 : State :=
        { st with jobDetailCache := eraseCache st.jobDetailCache jid }
       let st2 : State :=
        if st1.expandedJobId == some jid then
          (fetchAndRenderDetail st1 jid true
            (st1.jobList.any (fun j => j.job_id == jid))).fst
        else st1
       { st2 with agentLog := st2.agentLog ++
          [{ agent := "generator",
             message := "Förfinad variant: " ++ jsOr d.variant "",
             time := ts }] }) :=
  rfl

theorem handleEvent_job_completed (st : State) (jid : String)
    (d : EventData) (ts : String) :
    handleEvent st ⟨"job_completed", jid, d, ts⟩ =
      (let st1 : State := updateJobStage st jid "complete"
       let st2 : State :=
        { st1 with jobDetailCache := eraseCache st1.jobDetailCache jid }
       let st3 : State := renderGalleryFetch st2
       if st3.expandedJobId == some jid then
        (fetchAndRenderDetail st3 jid false
          (st3.jobList.any (fun j => j.job_id == jid))).fst
       else st3) :=
  rfl

theorem handleEvent_job_started (st : State) (jid : String)
    (d : EventData) (ts : String) :
    handleEvent st ⟨"job_started", jid, d, ts⟩ =
      (let st1 : State := { st with currentJobId := some jid, agentLog := [] }
       let st2 : State :=
        if (st1.jobList.find? (fun j => j.job_id == jid)).isSome then st1
        else
          { st1 with jobList :=
              { job_id := jid, prompt := jsOr d.prompt "", stage := "research",
                created_at := ts, completed_at := none, image_count := 0,
                winner := none, winner_path := none } :: st1.jobList }
       renderGalleryFetch
        { st2 with jobDetailCache := eraseCache st2.jobDetailCache jid }) :=
  rfl

theorem handleEvent_job_failed (st : State) (jid : String)
    (d : EventData) (ts : String) :
    handleEvent st ⟨"job_failed", jid, d, ts⟩ =
      (let st1 : State := updateJobStage st jid "failed"
       let st2 : State :=
        { st1 with agentLog := st1.agentLog ++
            [{ agent := "system",
               message := "Fel: " ++ jsOr d.error "unknown",
               time := ts }] }
       renderGalleryFetch st2) :=
  rfl

theorem handleEvent_cache_erased (st : State) (jid : String) (d : EventData)
    (ts ty : String)
    (h : ty = "image_generated" ∨ ty = "variant_scored" ∨
         ty = "image_refined" ∨ ty = "job_completed") :
    (handleEvent st ⟨ty, jid, d, ts⟩).jobDetailCache
      = eraseCache st.jobDetailCache jid := by
  rcases h with h | h | h | h <;> subst h
  · rw [handleEvent_image_generated]
  · rw [handleEvent_variant_scored]
  · rw [handleEvent_image_refined]
    dsimp only
    split
    · simp [fetchAndRenderDetail_cache]
    · rfl
  · rw [handleEvent_job_completed]
    dsimp only
    split
    · simp [fetchAndRenderDetail_cache, renderGalleryFetch_cache, updateJobStage]
    · simp [renderGalleryFetch_cache, updateJobStage]

theorem handleEvent_job_completed_jobList (st : State) (jid : String)
    (d : EventData) (ts : String) :
    (handleEvent st ⟨"job_completed", jid, d, ts⟩).jobList
      = setStageFirst st.jobList jid "complete" := by
  rw [handleEvent_job_completed]
  dsimp only
  split
  · simp [fetchAndRenderDetail_jobList, renderGalleryFetch_jobList, updateJobStage]
  · simp [renderGalleryFetch_jobList, updateJobStage]

theorem handleEvent_job_failed_jobList (st : State) (jid : String)
    (d : EventData) (ts : String) :
    (handleEvent st ⟨"job_failed", jid, d, ts⟩).jobList
      = setStageFirst st.jobList jid "failed" := by
  rw [handleEvent_job_failed]
  dsimp only
  simp [renderGalleryFetch_jobList, updateJobStage]

theorem sameExceptStage_refl (target : String) (j : JobSummary) :
    sameExceptStage target j j :=
  ⟨rfl, rfl, rfl, rfl, rfl, rfl, rfl, fun _ => rfl⟩

theorem forall₂_setStageFirst (l : List JobSummary) (jobId stage : String) :
    List.Forall₂ (sameExceptStage jobId) l (setStageFirst l jobId stage) := by
  induction l with
  | nil => exact List.Forall₂.nil
  | cons j rest ih =>
      by_cases hj : j.job_id == jobId
      · simp only [setStageFirst, hj, if_true]
        refine List.Forall₂.cons ?_ ?_
        · exact ⟨rfl, rfl, rfl, rfl, rfl, rfl, rfl,
            fun hne => absurd (by simpa [beq_iff_eq] using hj) hne⟩
        · exact (List.forall₂_same).mpr (fun x _ => sameExceptStage_refl jobId x)
      · simp only [setStageFirst, hj, if_false]
        exact List.Forall₂.cons (sameExceptStage_refl jobId j) ih

theorem fireIfDue_none (s : SearchState) (now : Nat) (h : s.pendingAt = none) :
    fireIfDue s now = s := by
  unfold fireIfDue
  rw [h]

theorem fireIfDue_not_due (s : SearchState) (now p : Nat)
    (hp : s.pendingAt = some p) (h : ¬ p ≤ now) : fireIfDue s now = s := by
  unfold fireIfDue
  rw [hp]
  exact if_neg h

theorem runSearchInputs_cons (s : SearchState) (e : Nat × String)
    (evs : List (Nat × String)) :
    runSearchInputs s (e :: evs) = runSearchInputs (onSearchInput s e.fst e.snd) evs :=
  rfl

theorem runSearchInputs_no_fire (evs : List (Nat × String)) :
    ∀ (s : SearchState) (tprev : Nat),
      s.pendingAt = some (tprev + 350) → gapsFrom tprev evs = true →
      runSearchInputs s evs =
        { s with pendingAt := some (evs.foldl (fun _ e => e.fst) tprev + 350),
                 searchText := evs.foldl (fun _ e => e.snd) s.searchText } := by
  induction evs with
  | nil =>
      intro s tprev hp _
      obtain ⟨pa, stext, q⟩ := s
      replace hp : pa = some (tprev + 350) := hp
      subst hp
      rfl
  | cons e rest ih =>
      intro s tprev hp hg
      simp only [gapsFrom, Bool.and_eq_true, decide_eq_true_eq] at hg
      obtain ⟨⟨h1, h2⟩, hg⟩ := hg
      rw [runSearchInputs_cons]
      have hfire : fireIfDue s e.fst = s :=
        fireIfDue_not_due s e.fst (tprev + 350) hp (by omega)
      have hstep : onSearchInput s e.fst e.snd
          = { s with searchText := e.snd, pendingAt := some (e.fst + 350) } := by
        unfold onSearchInput
        rw [hfire]
      rw [hstep, ih _ e.fst rfl hg]
      rfl

end V2

namespace V1

theorem find?_map_modify_self (l : List (String × Job)) (jobId : String)
    (f : Job → Job) :
    ((l.map (fun e => if e.fst == jobId then (e.fst, f e.snd) else e)).find?
        (fun e => e.fst == jobId))
      = (l.find? (fun e => e.fst == jobId)).map (fun e => (e.fst, f e.snd)) := by
  induction l with
  | nil => rfl
  | cons e rest ih =>
      by_cases hj : e.fst == jobId
      · rw [List.map_cons, if_pos hj,
          List.find?_cons_of_pos (p := fun (e : String × Job) => e.fst == jobId) _ (by exact hj),
          List.find?_cons_of_pos (p := fun (e : String × Job) => e.fst == jobId) _ hj]
        rfl
      · rw [List.map_cons, if_neg hj,
          List.find?_cons_of_neg (p := fun (e : String × Job) => e.fst == jobId) _ hj,
          List.find?_cons_of_neg (p := fun (e : String × Job) => e.fst == jobId) _ hj, ih]

theorem lookupJob_modifyJob_self (st : State) (jobId : String) (f : Job → Job) :
    lookupJob (modifyJob st jobId f).jobs jobId
      = (lookupJob st.jobs jobId).map f := by
  show lookupJob (st.jobs.map _) jobId = _
  unfold lookupJob
  rw [find?_map_modify_self]
  cases st.jobs.find? (fun e => e.fst == jobId) <;> rfl

theorem find?_map_modify_isSome (l : List (String × Job)) (jobId target : String)
    (f : Job → Job) :
    ((l.map (fun e => if e.fst == jobId then (e.fst, f e.snd) else e)).find?
        (fun e => e.fst == target)).isSome
      = (l.find? (fun e => e.fst == target)).isSome := by
  induction l with
  | nil => rfl
  | cons e rest ih =>
      by_cases hj : e.fst == jobId <;> by_cases ht : e.fst == target
      · rw [List.map_cons, if_pos hj,
          List.find?_cons_of_pos (p := fun (e : String × Job) => e.fst == target) _ (by exact ht),
          List.find?_cons_of_pos (p := fun (e : String × Job) => e.fst == target) _ ht]
        rfl
      · rw [List.map_cons, if_pos hj,
          List.find?_cons_of_neg (p := fun (e : String × Job) => e.fst == target) _ (by exact ht),
          List.find?_cons_of_neg (p := fun (e : String × Job) => e.fst == target) _ ht, ih]
      · rw [List.map_cons, if_neg hj,
          List.find?_cons_of_pos (p := fun (e : String × Job) => e.fst == target) _ ht,
          List.find?_cons_of_pos (p := fun (e : String × Job) => e.fst == target) _ ht]
      · rw [List.map_cons, if_neg hj,
          List.find?_cons_of_neg (p := fun (e : String × Job) => e.fst == target) _ ht,
          List.find?_cons_of_neg (p := fun (e : String × Job) => e.fst == target) _ ht, ih]

theorem lookupJob_modifyJob_isSome (st : State) (jobId target : String)
    (f : Job → Job) :
    (lookupJob (modifyJob st jobId f).jobs target).isSome
      = (lookupJob st.jobs target).isSome := by
  show (lookupJob (st.jobs.map _) target).isSome = _
  unfold lookupJob
  rw [isSomeMap, isSomeMap, find?_map_modify_isSome]

theorem ensureJob_present (st : State) (ev : EventEnvelope)
    (h : (lookupJob st.jobs ev.job_id).isSome = true) : ensureJob st ev = st := by
  unfold ensureJob
  rw [if_pos h]

theorem v1_find?_append_right_none (l : List (String × Job)) (jobId : String)
    (j : Job) (h : l.find? (fun e => e.fst == jobId) = none) :
    ((l ++ [(jobId, j)]).find? (fun e => e.fst == jobId)) = some (jobId, j) := by
  induction l with
  | nil => simp [List.find?]
  | cons e rest ih =>
      by_cases he : e.fst == jobId
      · simp [List.find?, he] at h
      · simp only [List.find?, he] at h
        simpa [List.find?, he] using ih h

theorem lookupJob_ensureJob_absent (st : State) (ev : EventEnvelope)
    (h : lookupJob st.jobs ev.job_id = none) :
    lookupJob (ensureJob st ev).jobs ev.job_id = some (defaultJob ev) := by
  have hfind : st.jobs.find? (fun e => e.fst == ev.job_id) = none := by
    unfold lookupJob at h
    cases hf : st.jobs.find? (fun e => e.fst == ev.job_id)
    · rfl
    · simp [hf] at h
  have hnot : ¬ (lookupJob st.jobs ev.job_id).isSome = true := by
    rw [h]
    simp
  unfold ensureJob
  rw [if_neg hnot]
  show lookupJob (st.jobs ++ [(ev.job_id, defaultJob ev)]) ev.job_id = _
  unfold lookupJob
  rw [v1_find?_append_right_none st.jobs ev.job_id (defaultJob ev) hfind]
  rfl

theorem applyTyped_job_started (st : State) (jid : String) (d : EventData)
    (ts : String) :
    applyTyped st ⟨"job_started", jid, d, ts⟩ =
      (let st1 := modifyJob st jid (fun j =>
        { j with prompt := jsOr d.prompt j.prompt, stage := "research" })
       { st1 with currentJobId := some jid, agentLog := [] }) :=
  rfl

theorem applyTyped_lookup_isSome (st : State) (ev : EventEnvelope) (j : String)
    (h : (lookupJob st.jobs j).isSome = true) :
    (lookupJob (applyTyped st ev).jobs j).isSome = true := by
  unfold applyTyped
  split_ifs <;> simp [lookupJob_modifyJob_isSome, h]

end V1

end Dashboard

namespace Dashboard

theorem stageOf_renderGalleryFetch (st : V2.State) (jobId : String) :
    V2.stageOf (V2.renderGalleryFetch st) jobId = V2.stageOf st jobId := by
  unfold V2.stageOf
  rw [V2.renderGalleryFetch_jobList]

/-- Claim C1, counterexample: the spec lists job_failed among the events
that invalidate the detail cache entry of their job, but the v2 job_failed
handler never touches jobDetailCache.  With j1 cached and expanded,
after handleEvent of job_failed the entry is still cached, the
renderGallery detail access is served from the cache, and no GET
/api/jobs/j1 is issued. -/
theorem C1_counterexample :
    V2.lookupCache (V2.handleEvent exState exFailedEvent).jobDetailCache "j1"
        = some exDetailOne
      ∧ (V2.fetchAndRenderDetail (V2.handleEvent exState exFailedEvent) "j1"
          false true).snd = V2.FetchOutcome.servedCache
      ∧ (V2.handleEvent exState exFailedEvent).issuedFetches = [] :=
  ⟨rfl, rfl, rfl⟩

/-- Claim C1, amended: after the v2 handler processes image_generated,
variant_scored, image_refined, or job_completed for job J, the detail
cache entry of J has been removed and the next detail access for J issues
a GET /api/jobs/J; job_failed, contrary to the claim, leaves the cache
entry in place. -/
theorem C1_amended (st : V2.State) (ev : EventEnvelope)
    (h : ev.type = "image_generated" ∨ ev.type = "variant_scored" ∨
         ev.type = "image_refined" ∨ ev.type = "job_completed") :
    V2.lookupCache (V2.handleEvent st ev).jobDetailCache ev.job_id = none
      ∧ (V2.fetchAndRenderDetail (V2.handleEvent st ev) ev.job_id false true).snd
          = V2.FetchOutcome.issuedRequest := by
  obtain ⟨ty, jid, d, ts⟩ := ev
  have hc := V2.handleEvent_cache_erased st jid d ts ty h
  have hnone :
      V2.lookupCache (V2.handleEvent st ⟨ty, jid, d, ts⟩).jobDetailCache jid
        = none := by
    rw [hc]
    exact V2.lookupCache_eraseCache_self ..
  refine ⟨hnone, ?_⟩
  unfold V2.fetchAndRenderDetail
  simp [hnone]

/-- Claim C1 amended, witness at a variant_scored event. -/
theorem C1_amended_witness :
    V2.lookupCache (V2.handleEvent exState exScoredEvent).jobDetailCache "j1"
        = none
      ∧ (V2.fetchAndRenderDetail (V2.handleEvent exState exScoredEvent) "j1"
          false true).snd = V2.FetchOutcome.issuedRequest :=
  C1_amended exState exScoredEvent (Or.inr (Or.inl rfl))

/-- Claim C3, counterexample: the v2 script tags detail fetches with no
sequence number.  Two fetches are issued for j1; the later-issued one
completes first with the second response, then the earlier-issued one
completes with the stale first response, which overwrites the newer
cached data instead of being discarded. -/
theorem C3_counterexample :
    ((V2.fetchAndRenderDetail
        ((V2.fetchAndRenderDetail { exState with jobDetailCache := [] }
          "j1" false true).fst) "j1" false true).fst).issuedFetches
        = [("j1", false), ("j1", false)]
      ∧ V2.lookupCache
          (V2.fetchSuccess
            (V2.fetchSuccess
              ((V2.fetchAndRenderDetail
                ((V2.fetchAndRenderDetail { exState with jobDetailCache := [] }
                  "j1" false true).fst) "j1" false true).fst)
              "j1" exDetailTwo)
            "j1" exDetailOne).jobDetailCache "j1" = some exDetailOne
      ∧ exDetailOne ≠ exDetailTwo :=
  ⟨rfl, rfl, by decide⟩

/-- Claim C3, amended: the v2 cache keeps whatever detail response
completed last for a job id, regardless of issue order; a late-arriving
stale response is written to the cache, not discarded. -/
theorem C3_amended (st : V2.State) (jobId : String) (detail : JobDetail) :
    V2.lookupCache (V2.fetchSuccess st jobId detail).jobDetailCache jobId
      = some detail :=
  V2.lookupCache_insertCache_self ..

/-- Claim C7, counterexample: a job_started event optimistically inserts
new1 into the catalog at stage research, but one successful reload whose
server response lacks new1 drops it immediately, instead of keeping it
until the next successful reload. -/
theorem C7_counterexample :
    V2.stageOf (V2.handleEvent ({} : V2.State) exFreshStartEvent) "new1"
        = some "research"
      ∧ (V2.loadJobs (V2.handleEvent ({} : V2.State) exFreshStartEvent)
          (some [])).jobList = [] :=
  ⟨rfl, rfl⟩

/-- Claim C7, amended: a successful catalog reload wholesale replaces
jobList with the server response, dropping any optimistic insertion absent
from it; a failed reload leaves the state untouched. -/
theorem C7_amended (st : V2.State) (response : List JobSummary) :
    (V2.loadJobs st (some response)).jobList = response
      ∧ V2.loadJobs st none = st := by
  constructor
  · show (V2.renderGalleryFetch _).jobList = _
    rw [V2.renderGalleryFetch_jobList]
  · rfl

/-- Claim C9: a malformed push payload (JSON.parse throws) is logged and
dropped — connection status, reconnect scheduling and dashboard state are
unchanged; no message ever changes the connection status; teardown (status
disconnected plus a scheduled reconnect) happens only through the
close/error callbacks, and the error callback just closes. -/
theorem C9_malformed_payload (cs : V2.ConnState) :
    (∀ p : Option EventEnvelope,
        (V2.wsMessage cs p).connected = cs.connected
          ∧ (V2.wsMessage cs p).reconnectScheduled = cs.reconnectScheduled)
      ∧ V2.wsMessage cs none = { cs with parseErrors := cs.parseErrors + 1 }
      ∧ (V2.wsMessage cs none).dash = cs.dash
      ∧ (V2.wsClose cs).connected = false
      ∧ (V2.wsClose cs).reconnectScheduled = true
      ∧ V2.wsError cs = V2.wsClose cs := by
  refine ⟨fun p => ?_, rfl, rfl, rfl, rfl, rfl⟩
  cases p <;> exact ⟨rfl, rfl⟩

/-- Claim C10: handling stage_changed, job_completed or job_failed for
job J changes, entrywise, at most the stage field of J's catalog entry:
every entry keeps its job_id, prompt, created_at, completed_at,
image_count, winner and winner_path, and entries of other jobs also keep
their stage. -/
theorem C10_frame (st : V2.State) (ev : EventEnvelope)
    (h : ev.type = "stage_changed" ∨ ev.type = "job_completed" ∨
         ev.type = "job_failed") :
    List.Forall₂ (sameExceptStage ev.job_id) st.jobList
      (V2.handleEvent st ev).jobList := by
  obtain ⟨ty, jid, d, ts⟩ := ev
  rcases h with h | h | h <;> subst h
  · rw [V2.handleEvent_stage_changed]
    exact V2.forall₂_setStageFirst ..
  · rw [V2.handleEvent_job_completed_jobList]
    exact V2.forall₂_setStageFirst ..
  · rw [V2.handleEvent_job_failed_jobList]
    exact V2.forall₂_setStageFirst ..

/-- Claim C10, witness at a job_failed event for j1. -/
theorem C10_frame_witness :
    List.Forall₂ (sameExceptStage "j1") exState.jobList
      (V2.handleEvent exState exFailedEvent).jobList :=
  C10_frame exState exFailedEvent (Or.inr (Or.inr rfl))

/-- Claim C2, counterexample: in the v2 script a job_started event for a
job already present in jobList does not overwrite its summary: j1 is at
stage complete before the event and still at complete, not research,
after it. -/
theorem C2_counterexample :
    V2.stageOf (V2.handleEvent exState exStartEvent) "j1" = some "complete"
      ∧ ("complete" : String) ≠ "research" :=
  ⟨rfl, by decide⟩

/-- Claim C2, amended: in the v2 script, job_started inserts a summary at
stage research only when the job is absent from jobList; when it is
already present the catalog is left unchanged (so a prior stage
survives).  The v1 script sets the stage to research unconditionally. -/
theorem C2_amended :
    (∀ (st : V2.State) (ev : EventEnvelope), ev.type = "job_started" →
        V2.stageOf st ev.job_id = none →
        V2.stageOf (V2.handleEvent st ev) ev.job_id = some "research")
      ∧ (∀ (st : V2.State) (ev : EventEnvelope), ev.type = "job_started" →
          (V2.stageOf st ev.job_id).isSome = true →
          (V2.handleEvent st ev).jobList = st.jobList)
      ∧ (∀ (st : V1.State) (ev : EventEnvelope), ev.type = "job_started" →
          V1.stageOf (V1.handleEvent st ev) ev.job_id = some "research") := by
  refine ⟨?_, ?_, ?_⟩
  · intro st ev hty hnone
    obtain ⟨ty, jid, d, ts⟩ := ev
    subst hty
    have hnone2 : V2.stageOf st jid = none := hnone
    have hfind : st.jobList.find? (fun j => j.job_id == jid) = none := by
      unfold V2.stageOf at hnone2
      cases hf : st.jobList.find? (fun j => j.job_id == jid)
      · rfl
      · rw [hf] at hnone2
        simp at hnone2
    show V2.stageOf (V2.handleEvent st ⟨"job_started", jid, d, ts⟩) jid
        = some "research"
    rw [V2.handleEvent_job_started]
    dsimp only
    rw [hfind]
    rw [if_neg (by simp)]
    rw [stageOf_renderGalleryFetch]
    unfold V2.stageOf
    dsimp only
    rw [List.find?_cons_of_pos _ (by simp)]
    rfl
  · intro st ev hty hsome
    obtain ⟨ty, jid, d, ts⟩ := ev
    subst hty
    have hsome2 : (st.jobList.find? (fun j => j.job_id == jid)).isSome = true := by
      have h0 : (V2.stageOf st jid).isSome = true := hsome
      unfold V2.stageOf at h0
      rwa [isSomeMap] at h0
    show (V2.handleEvent st ⟨"job_started", jid, d, ts⟩).jobList = st.jobList
    rw [V2.handleEvent_job_started]
    dsimp only
    rw [hsome2]
    rw [if_pos rfl]
    rw [V2.renderGalleryFetch_jobList]
  · intro st ev hty
    obtain ⟨ty, jid, d, ts⟩ := ev
    subst hty
    show V1.stageOf
        (V1.applyTyped (V1.ensureJob st ⟨"job_started", jid, d, ts⟩)
          ⟨"job_started", jid, d, ts⟩) jid = some "research"
    have hS : (V1.lookupJob
        (V1.ensureJob st ⟨"job_started", jid, d, ts⟩).jobs jid).isSome = true := by
      by_cases h : (V1.lookupJob st.jobs jid).isSome = true
      · have h2 : V1.ensureJob st ⟨"job_started", jid, d, ts⟩ = st :=
          V1.ensureJob_present st _ h
        rw [h2]
        exact h
      · have h0 : V1.lookupJob st.jobs jid = none := by
          cases hf : V1.lookupJob st.jobs jid
          · rfl
          · rw [hf] at h
            simp at h
        have h2 : V1.lookupJob
            (V1.ensureJob st ⟨"job_started", jid, d, ts⟩).jobs jid
              = some (V1.defaultJob ⟨"job_started", jid, d, ts⟩) :=
          V1.lookupJob_ensureJob_absent st _ h0
        rw [h2]
        rfl
    obtain ⟨job, hjob⟩ := Option.isSome_iff_exists.mp hS
    rw [V1.applyTyped_job_started]
    dsimp only
    unfold V1.stageOf
    dsimp only
    rw [V1.lookupJob_modifyJob_self, hjob]
    rfl

/-- Claim C2 amended, witness: a fresh job_started inserts at research,
job_started for the already-complete j1 leaves the catalog unchanged, and
the v1 store lands on research. -/
theorem C2_amended_witness :
    V2.stageOf (V2.handleEvent ({} : V2.State) exFreshStartEvent) "new1"
        = some "research"
      ∧ (V2.handleEvent exState exStartEvent).jobList = exState.jobList
      ∧ V1.stageOf (V1.handleEvent ({} : V1.State) exStartEvent) "j1"
          = some "research" := by
  refine ⟨?_, ?_, ?_⟩
  · exact C2_amended.1 {} exFreshStartEvent rfl rfl
  · exact C2_amended.2.1 exState exStartEvent rfl (by decide)
  · exact C2_amended.2.2 {} exStartEvent rfl

/-- Claim C4, counterexample: after job_failed for j1 a later
stage_changed event moves j1 to generating — the failed state is not
terminal in the code, updateJobStage has no guard. -/
theorem C4_counterexample :
    V2.stageOf (V2.handleEvent (V2.handleEvent exState exFailedEvent)
        exStageEvent) "j1" = some "generating"
      ∧ ("generating" : String) ≠ "failed" :=
  ⟨rfl, by decide⟩

/-- Claim C4, amended: job_failed does set the job stage to failed, but a
subsequent stage_changed event for the same job is still applied and
overwrites the stage — there is no terminal-state enforcement. -/
theorem C4_amended :
    (∀ (st : V2.State) (ev : EventEnvelope), ev.type = "job_failed" →
        (V2.stageOf st ev.job_id).isSome = true →
        V2.stageOf (V2.handleEvent st ev) ev.job_id = some "failed")
      ∧ (∀ (st : V2.State) (ev : EventEnvelope) (s : String),
          ev.type = "stage_changed" → ev.data.stage = some s →
          (V2.stageOf st ev.job_id).isSome = true →
          V2.stageOf (V2.handleEvent st ev) ev.job_id = some s) := by
  constructor
  · intro st ev hty hsome
    obtain ⟨ty, jid, d, ts⟩ := ev
    subst hty
    have hsome2 : (V2.stageOf st jid).isSome = true := hsome
    show V2.stageOf (V2.handleEvent st ⟨"job_failed", jid, d, ts⟩) jid
        = some "failed"
    have heq : V2.stageOf (V2.handleEvent st ⟨"job_failed", jid, d, ts⟩) jid
        = V2.stageOf (V2.updateJobStage st jid "failed") jid := by
      unfold V2.stageOf
      rw [V2.handleEvent_job_failed_jobList]
      rfl
    rw [heq]
    exact V2.stageOf_updateJobStage_self st jid "failed" hsome2
  · intro st ev s hty hstage hsome
    obtain ⟨ty, jid, d, ts⟩ := ev
    subst hty
    have hsome2 : (V2.stageOf st jid).isSome = true := hsome
    have hstage2 : d.stage = some s := hstage
    show V2.stageOf (V2.handleEvent st ⟨"stage_changed", jid, d, ts⟩) jid
        = some s
    rw [V2.handleEvent_stage_changed, hstage2]
    exact V2.stageOf_updateJobStage_self st jid ((some s).getD "") hsome2

/-- Claim C4 amended, witness: j1 goes to failed on job_failed, then to
generating on the following stage_changed. -/
theorem C4_amended_witness :
    V2.stageOf (V2.handleEvent exState exFailedEvent) "j1" = some "failed"
      ∧ V2.stageOf (V2.handleEvent (V2.handleEvent exState exFailedEvent)
          exStageEvent) "j1" = some "generating" := by
  constructor
  · exact C4_amended.1 exState exFailedEvent rfl (by decide)
  · exact C4_amended.2 (V2.handleEvent exState exFailedEvent) exStageEvent
      "generating" rfl rfl (by decide)

/-- Claim C5, counterexample: renderPipeline receives only the current
stage string; for the argument failed the STAGES findIndex is -1, so no
icon is marked failed — all four render pending, including the one at the
last known stage index (say 2, generating). -/
theorem C5_counterexample :
    renderPipeline "failed" = ["pending", "pending", "pending", "pending"]
      ∧ (renderPipeline "failed").get? 2 = some "pending"
      ∧ ("pending" : String) ≠ "failed" :=
  ⟨rfl, rfl, by decide⟩

/-- Claim C5, amended: for a canonical stage at index k the icons render
done before k, active at k and pending after k; for complete all render
done; for any argument matching no STAGES key (failed, queued, or junk)
and not complete — in particular failed — all four render pending, and no
icon is ever marked failed at the last known index. -/
theorem C5_amended :
    (∀ (k : Nat) (hk : k < 4),
        renderPipeline (STAGES.get ⟨k, hk⟩)
          = (List.range 4).map (fun i =>
              if i < k then "done" else if i = k then "active" else "pending"))
      ∧ renderPipeline "complete" = ["done", "done", "done", "done"]
      ∧ (∀ s : String, STAGES.findIdx? (fun x => x == s) = none →
          s ≠ "complete" →
          renderPipeline s = ["pending", "pending", "pending", "pending"]) := by
  refine ⟨?_, rfl, ?_⟩
  · intro k hk
    interval_cases k <;> rfl
  · intro s hidx hcomp
    have h1 : stageFindIndex s = -1 := by
      unfold stageFindIndex
      rw [hidx]
    have hc : (s == "complete") = false := by
      rw [beq_eq_false_iff_ne]
      exact hcomp
    have hi : ∀ i : Nat, stageIconClass s i = "pending" := by
      intro i
      have e1 : ((i : Int) == (-1 : Int)) = false := by
        rw [beq_eq_false_iff_ne]
        omega
      have e2 : decide ((i : Int) < (-1 : Int)) = false := by
        rw [decide_eq_false_iff_not]
        omega
      simp [stageIconClass, h1, hc, e1, e2]
    show List.map (stageIconClass s) (List.range STAGES.length) = _
    have hr : List.range STAGES.length = [0, 1, 2, 3] := rfl
    rw [hr]
    simp [hi]

/-- Claim C5 amended, witness: stage generating (index 2) and the failed
argument. -/
theorem C5_amended_witness :
    renderPipeline "generating" = ["done", "done", "active", "pending"]
      ∧ renderPipeline "failed" = ["pending", "pending", "pending", "pending"] := by
  constructor
  · exact C5_amended.1 2 (by decide)
  · exact C5_amended.2.2 "failed" (by decide) (by decide)

/-- Claim C6, counterexample: in the v2 script an event for an unknown
job id creates no implicit summary — a stage_changed for the unseen id zz
leaves the catalog empty and the stage update is silently dropped. -/
theorem C6_counterexample :
    (V2.handleEvent ({} : V2.State) exUnknownStageEvent).jobList = []
      ∧ V2.stageOf (V2.handleEvent ({} : V2.State) exUnknownStageEvent) "zz"
          = none :=
  ⟨rfl, rfl⟩

/-- Claim C6, amended: the v1 script creates an implicit default summary
for an unseen job id before the type-specific effect runs, and its router
always leaves the job present afterwards (it never fails); the v2 script
instead creates no implicit summary — a stage_changed for an unknown id
leaves the whole state unchanged (the event is absorbed, not an error). -/
theorem C6_amended :
    (∀ (st : V1.State) (ev : EventEnvelope),
        V1.lookupJob st.jobs ev.job_id = none →
        V1.lookupJob (V1.ensureJob st ev).jobs ev.job_id
            = some (V1.defaultJob ev)
          ∧ V1.handleEvent st ev = V1.applyTyped (V1.ensureJob st ev) ev)
      ∧ (∀ (st : V1.State) (ev : EventEnvelope),
          (V1.lookupJob (V1.handleEvent st ev).jobs ev.job_id).isSome = true)
      ∧ (∀ (st : V2.State) (ev : EventEnvelope), ev.type = "stage_changed" →
          V2.stageOf st ev.job_id = none →
          V2.handleEvent st ev = st) := by
  refine ⟨?_, ?_, ?_⟩
  · intro st ev h
    exact ⟨V1.lookupJob_ensureJob_absent st ev h, rfl⟩
  · intro st ev
    have hS : (V1.lookupJob (V1.ensureJob st ev).jobs ev.job_id).isSome
        = true := by
      by_cases h : (V1.lookupJob st.jobs ev.job_id).isSome = true
      · rw [V1.ensureJob_present st ev h]
        exact h
      · have h0 : V1.lookupJob st.jobs ev.job_id = none := by
          cases hf : V1.lookupJob st.jobs ev.job_id
          · rfl
          · rw [hf] at h
            simp at h
        rw [V1.lookupJob_ensureJob_absent st ev h0]
        rfl
    exact V1.applyTyped_lookup_isSome (V1.ensureJob st ev) ev ev.job_id hS
  · intro st ev hty hnone
    obtain ⟨ty, jid, d, ts⟩ := ev
    subst hty
    have hnone2 : V2.stageOf st jid = none := hnone
    have hfind : st.jobList.find? (fun j => j.job_id == jid) = none := by
      unfold V2.stageOf at hnone2
      cases hf : st.jobList.find? (fun j => j.job_id == jid)
      · rfl
      · rw [hf] at hnone2
        simp at hnone2
    show V2.handleEvent st ⟨"stage_changed", jid, d, ts⟩ = st
    rw [V2.handleEvent_stage_changed]
    unfold V2.updateJobStage
    rw [V2.setStageFirst_of_none _ _ _ hfind]

/-- Claim C6 amended, witness at the unknown id zz: v1 creates the
default record and factors through it, v2 absorbs the event without any
change. -/
theorem C6_amended_witness :
    (V1.lookupJob (V1.ensureJob ({} : V1.State) exUnknownStageEvent).jobs "zz"
        = some (V1.defaultJob exUnknownStageEvent)
      ∧ V1.handleEvent ({} : V1.State) exUnknownStageEvent
          = V1.applyTyped (V1.ensureJob ({} : V1.State) exUnknownStageEvent)
              exUnknownStageEvent)
      ∧ V2.handleEvent ({} : V2.State) exUnknownStageEvent = ({} : V2.State) := by
  constructor
  · exact C6_amended.1 {} exUnknownStageEvent rfl
  · exact C6_amended.2.2 {} exUnknownStageEvent rfl rfl

/-- Claim C8: a burst of search-input changes each within 350ms of the
previous one produces exactly one catalog query, fired only after 350ms of
quiet (each new input cancels the pending fire), carrying the final
(trimmed) input value; a sort-key change fires a query immediately. -/
theorem C8_debounce :
    (∀ (s : V2.SearchState) (t : Nat) (x : String) (evs : List (Nat × String)),
        s.pendingAt = none →
        V2.gapsWithinDebounce ((t, x) :: evs) = true →
        (V2.settleDebounce (V2.runSearchInputs s ((t, x) :: evs))).queries
            = s.queries ++ [(evs.foldl (fun _ e => e.snd) x).trim]
          ∧ (V2.settleDebounce (V2.runSearchInputs s ((t, x) :: evs))).pendingAt
              = none)
      ∧ (∀ (s : V2.SearchState) (now : Nat), s.pendingAt = none →
          (V2.onSortChange s now).queries = s.queries ++ [s.searchText.trim]) := by
  constructor
  · intro s t x evs hp hg
    have hg2 : V2.gapsFrom t evs = true := hg
    rw [V2.runSearchInputs_cons]
    have hstep : V2.onSearchInput s t x
        = { s with searchText := x, pendingAt := some (t + 350) } := by
      unfold V2.onSearchInput
      rw [V2.fireIfDue_none s t hp]
    rw [hstep, V2.runSearchInputs_no_fire evs _ t rfl hg2]
    exact ⟨rfl, rfl⟩
  · intro s now hp
    unfold V2.onSortChange
    rw [V2.fireIfDue_none s now hp]

/-- Claim C8, witness: inputs at 0, 100 and 400ms (gaps below 350)
produce the single query bike, trimmed from the final text; a sort change
on a quiet state fires one immediate query. -/
theorem C8_debounce_witness :
    (V2.settleDebounce (V2.runSearchInputs ({} : V2.SearchState)
        [(0, "b"), (100, "bi"), (400, "bike ")])).queries
        = [("bike " : String).trim]
      ∧ (V2.settleDebounce (V2.runSearchInputs ({} : V2.SearchState)
          [(0, "b"), (100, "bi"), (400, "bike ")])).pendingAt = none
      ∧ (V2.onSortChange ({} : V2.SearchState) 500).queries
          = [("" : String).trim] := by
  have h := C8_debounce.1 {} 0 "b" [(100, "bi"), (400, "bike ")] rfl (by decide)
  refine ⟨?_, h.2, ?_⟩
  · rw [h.1]
    rfl
  · rw [C8_debounce.2 {} 500 rfl]
    rfl

end Dashboard
